import Mathlib

/-!
Shallow embedding of the booking/triage core of the
`rochsolutions-ai-receptionist` repository, together with theorems checking
the natural-language specification against it.

Conventions of the embedding:

* Timestamps (`datetime` values of the source, which all live in the clinic's
  local wall clock, timezone "Europe/London") are modelled as natural numbers:
  seconds elapsed since Monday 2024-01-01 00:00:00 local wall time.  The
  source's datetime arithmetic (`+ timedelta`, `.replace`, comparisons,
  `.weekday()`, `.minute`) is plain wall-clock arithmetic, which this
  representation reproduces exactly.
* Python functions that can raise an uncaught exception are embedded as
  `Option`-valued functions; `none` is an escaped exception.
* External collaborators (the Google calendar client, the Redis credential
  store) are network I/O; their responses are supplied by an explicit
  environment value (`Env`), and calendar mutations are recorded as an
  explicit effect trace, following the collaborator interfaces of the spec.
-/

namespace Receptionist

/-! ## Wall-clock time arithmetic

`DateTime` is the number of seconds since Monday 2024-01-01 00:00:00,
Europe/London wall clock (2024-01-01 was a Monday, so weekday 0 = Monday,
matching Python's `datetime.weekday`). -/

abbrev DateTime := Nat

/-- Python `dt.weekday()`: 0 = Monday … 6 = Sunday. -/
def weekdayOf (t : DateTime) : Nat := t / 86400 % 7

/-- Midnight of the same day (used by `.replace(hour=…, minute=0, …)`). -/
def dayFloor (t : DateTime) : DateTime := t - t % 86400

/-- Python `dt.minute`. -/
def minuteOf (t : DateTime) : Nat := t % 3600 / 60

/-- Python `dt.hour`. -/
def hourOf (t : DateTime) : Nat := t % 86400 / 3600

/-- Python `dt.replace(hour=h, minute=0, second=0, microsecond=0)`. -/
def atHour (t : DateTime) (h : Nat) : DateTime := dayFloor t + h * 3600

/-- Python `dt.replace(second=0, microsecond=0)`. -/
def truncMinute (t : DateTime) : DateTime := t - t % 60

/-- A candidate or offered slot: the `(start, end)` datetime pair of the
source (`tuple[datetime, datetime]`). -/
abbrev Slot := DateTime × DateTime

/-! ## `app/tools/slots.py` -/

/-- `overlaps` (slots.py line 8): half-open interval overlap,
`max(a_start, b_start) < min(a_end, b_end)`. -/
def overlaps (a_start a_end b_start b_end : DateTime) : Bool :=
  max a_start b_start < min a_end b_end

/-- `next_7_days_window` (slots.py line 29) with `now` supplied by the
environment: `(now, now + timedelta(days=7))`. -/
def next_7_days_window (now : DateTime) : DateTime × DateTime :=
  (now, now + 7 * 86400)

/-- The cursor initialisation of `generate_candidate_slots` (lines 49-53):
zero the seconds/microseconds, then advance to the next
`duration_min`-aligned minute boundary if the minute is misaligned.
(`duration_min = 0` would raise `ZeroDivisionError` in Python; all call
sites use a positive duration.) -/
def alignCursor (window_start : DateTime) (duration_min : Nat) : DateTime :=
  let c := truncMinute window_start
  let minute_mod := minuteOf c % duration_min
  if minute_mod = 0 then c else c + (duration_min - minute_mod) * 60

/-- The `while cursor < window_end` loop of `generate_candidate_slots`
(lines 55-67), written with explicit fuel so that it is structurally
recursive; a fuel of `window_end - cursor` steps suffices because the
cursor advances by `step ≥ 60` seconds per iteration whenever the duration
is positive (for `step = 0` the Python loop never terminates). -/
def genLoop (window_end step day_start_h day_end_h : Nat) :
    Nat → DateTime → List Slot
  | 0, _ => []
  | Nat.succ fuel, cursor =>
    if cursor < window_end then
      let rest := genLoop window_end step day_start_h day_end_h fuel (cursor + step)
      if weekdayOf cursor < 5 then
        let day_start := atHour cursor day_start_h
        let day_end := atHour cursor day_end_h
        let slot_start := cursor
        let slot_end := cursor + step
        if day_start ≤ slot_start ∧ slot_end ≤ day_end ∧ slot_end ≤ window_end then
          (slot_start, slot_end) :: rest
        else rest
      else rest
    else []

/-- `generate_candidate_slots` (slots.py lines 35-69). -/
def generate_candidate_slots (window_start window_end : DateTime)
    (duration_min day_start_h day_end_h : Nat) : List Slot :=
  let cursor := alignCursor window_start duration_min
  genLoop window_end (duration_min * 60) day_start_h day_end_h
    (window_end - cursor) cursor

/-- `filter_free_slots` (slots.py lines 72-81): keep the candidates that
overlap no busy block, preserving order. -/
def filter_free_slots (candidates busy_blocks : List Slot) : List Slot :=
  candidates.filter (fun se => ! busy_blocks.any (fun b => overlaps se.1 se.2 b.1 b.2))

/-- `pick_first_n` (slots.py line 90): `slots[:n]`. -/
def pick_first_n (slots : List Slot) (n : Nat) : List Slot := slots.take n

/-! `format_slot` (slots.py line 84): `strftime("%a %d %b at %H:%M")`.
The civil-date conversion below anchors the timeline at 2024-01-01
(epoch day 19723 since 1970-01-01) and uses the standard
days-to-civil-date computation. -/

def dayNames : List String := ["Mon", "Tue", "Wed", "Thu", "Fri", "Sat", "Sun"]

def monthNames : List String :=
  ["Jan", "Feb", "Mar", "Apr", "May", "Jun", "Jul", "Aug", "Sep", "Oct", "Nov", "Dec"]

/-- Day-of-month and month (1-12) of a day count since 2024-01-01. -/
def civilOfDays (d : Nat) : Nat × Nat :=
  let z := d + 19723 + 719468
  let doe := z % 146097
  let yoe := (doe - doe / 1460 + doe / 36524 - doe / 146096) / 365
  let doy := doe - (365 * yoe + yoe / 4 - yoe / 100)
  let mp := (5 * doy + 2) / 153
  let dom := doy - (153 * mp + 2) / 5 + 1
  let m := if mp < 10 then mp + 3 else mp - 9
  (dom, m)

/-- Zero-padded two-digit rendering (`%d`, `%H`, `%M`). -/
def pad2 (n : Nat) : String :=
  if n < 10 then "0" ++ toString n else toString n

/-- `format_slot` (slots.py lines 84-87): e.g. `"Tue 30 Dec at 14:30"`. -/
def format_slot (slot : Slot) : String :=
  let s := slot.1
  let dm := civilOfDays (s / 86400)
  (dayNames.getD (weekdayOf s) "") ++ " " ++ pad2 dm.1 ++ " "
    ++ (monthNames.getD (dm.2 - 1) "") ++ " at "
    ++ pad2 (hourOf s) ++ ":" ++ pad2 (minuteOf s)

/-! ## String helpers of `app/flows/triage.py` -/

/-- One step of `re.sub(r"\s+", " ", t)`: collapse every maximal run of
whitespace into a single space. -/
def collapseWS : List Char → List Char
  | [] => []
  | [c] => if c.isWhitespace then [' '] else [c]
  | c :: d :: rest =>
    if c.isWhitespace then
      if d.isWhitespace then collapseWS (d :: rest)
      else ' ' :: collapseWS (d :: rest)
    else c :: collapseWS (d :: rest)

/-- Python `str.strip()` (no argument): drop leading and trailing
whitespace. -/
def pyStrip (t : String) : String :=
  ⟨((t.data.dropWhile Char.isWhitespace).reverse.dropWhile Char.isWhitespace).reverse⟩

/-- `_norm` (triage.py lines 34-37): lowercase, strip, collapse internal
whitespace runs to single spaces.  (Python's `str.lower` is applied per
character; the keyword tables are all ASCII.) -/
def _norm (t : String) : String :=
  ⟨collapseWS (pyStrip ⟨t.data.map Char.toLower⟩).data⟩

/-- `needle` occurs at the start of `hay`. -/
def leadsList : List Char → List Char → Bool
  | [], _ => true
  | _ :: _, [] => false
  | a :: as, b :: bs => a = b && leadsList as bs

/-- `needle` occurs somewhere inside `hay`. -/
def subList (needle : List Char) : List Char → Bool
  | [] => needle.isEmpty
  | b :: bs => leadsList needle (b :: bs) || subList needle bs

/-- Python `needle in haystack` on strings: substring containment. -/
def containsSub (haystack needle : String) : Bool :=
  subList needle.data haystack.data

/-- `_contains_any` (triage.py lines 40-41). -/
def _contains_any (t : String) (keywords : List String) : Bool :=
  keywords.any (fun k => containsSub t k)

/-- `_digits_only` (triage.py lines 44-45): `re.sub(r"\D", "", s)`. -/
def _digits_only (s : String) : String :=
  ⟨s.data.filter Char.isDigit⟩

/-- `normalize_phone` (triage.py lines 72-76). -/
def normalize_phone (phone : String) : String := _digits_only phone

/-- `is_valid_phone` (triage.py lines 79-84): 10-15 digits after
normalization. -/
def is_valid_phone (phone : String) : Bool :=
  let p := normalize_phone phone
  10 ≤ p.length && p.length ≤ 15

/-! ## Intent classifier (`detect_intent`, triage.py lines 87-131) -/

def detect_intent (text : String) : String :=
  let t := _norm text
  if t = "" then "UNKNOWN"
  else if _contains_any t ["book", "booking", "appointment", "schedule", "available", "slot", "availability"] then "BOOK"
  else if _contains_any t ["reschedule", "change", "move", "cancel", "cancellation", "rebook", "postpone"] then "RESCHEDULE"
  else if _contains_any t ["price", "cost", "fee", "how much", "charge", "rates", "pricing", "payment", "pay"] then "FAQ_PRICES"
  else if _contains_any t ["hours", "open", "close", "opening", "when are you open", "weekend", "saturday", "sunday"] then "FAQ_HOURS"
  else if _contains_any t ["address", "location", "where are you", "parking", "postcode", "directions", "near", "map"] then "FAQ_LOCATION"
  else if _contains_any t ["insurance", "insured", "bupa", "axa", "vitality", "aviva", "wpa", "cigna", "claim", "receipt"] then "FAQ_INSURANCE"
  else if _contains_any t ["physio", "physiotherapy", "chiro", "chiropractor", "massage", "sports therapy", "rehab", "pain", "injury"] then "FAQ_SERVICES"
  else if _contains_any t ["back pain", "neck", "shoulder", "knee", "ankle", "hip", "sciatica", "sprain", "strain", "tendon", "post op", "surgery"] then "FAQ_CONDITIONS"
  else if _contains_any t ["referral", "gp", "doctor", "nhs", "letter", "prescription"] then "FAQ_REFERRAL"
  else if _contains_any t ["what should i bring", "bring", "what do i wear", "clothes", "arrive", "late", "parking"] then "FAQ_FIRST_VISIT"
  else if _contains_any t ["cancel policy", "cancellation policy", "late fee", "refund", "missed appointment"] then "FAQ_POLICIES"
  else if _contains_any t ["privacy", "data", "gdpr", "recording", "confidential"] then "FAQ_PRIVACY"
  else if _contains_any t ["human", "person", "receptionist", "someone", "call me back", "speak to"] then "HUMAN"
  else "OTHER"

/-- `preference_window` (triage.py lines 134-148): morning 9-12,
afternoon 12-17, evening 17-20. -/
def preference_window (p0 : String) : Option (Nat × Nat) :=
  let p := _norm p0
  if containsSub p "morning" then some (9, 12)
  else if containsSub p "afternoon" then some (12, 17)
  else if containsSub p "evening" || containsSub p "after work" || containsSub p "afterwork" then some (17, 20)
  else none

/-! ## Clinic profile (`app/clinic_config.py` and triage.py lines 48-69)

`working_hours` is a per-day dict in the source; the core reads only its
`"mon"` entry (`clinic_default_hours`), so only that entry is modelled. -/

structure ClinicP where
  display_name : Option String
  timezone : Option String
  calendar_id : Option String
  slot_minutes : Option Nat
  days_ahead : Option Nat
  working_hours_mon : Option (Nat × Nat)
  address : Option String
  parking : Option String
  hours_summary : Option String
  pricing_summary : Option String
  services : List String
  insurance_note : Option String
  common_insurers : List String
  cancellation_policy : Option String
  what_to_bring : Option String
deriving DecidableEq, Repr

/-- The `"demo"` entry of `CLINICS` (clinic_config.py). -/
def demoClinic : ClinicP where
  display_name := some "RochSolutions Clinic (Demo)"
  timezone := some "Europe/London"
  calendar_id := some "primary"
  slot_minutes := some 30
  days_ahead := some 7
  working_hours_mon := some (9, 18)
  address := some "Demo address — set per clinic"
  parking := some "Demo parking — set per clinic"
  hours_summary := some "Mon–Fri 9am–6pm"
  pricing_summary := some "Initial £50–£90, follow-up £40–£75 (varies by clinic)."
  services := ["Physiotherapy", "Sports therapy", "MSK rehab", "Injury assessment"]
  insurance_note := some "Most clinics provide receipts for insurance claims; coverage depends on your policy."
  common_insurers := ["Bupa", "AXA Health", "Vitality", "Aviva", "WPA", "Cigna", "Simplyhealth"]
  cancellation_policy := some "Please give 24h notice to avoid late cancellation fees (varies by clinic)."
  what_to_bring := some "Photo ID, any scans/reports, and comfortable clothing."

/-- The `CLINICS` registry (clinic_config.py): a single `"demo"` entry. -/
def CLINICS (key : String) : Option ClinicP :=
  if key = "demo" then some demoClinic else none

/-- `clinic_default_hours` (triage.py lines 60-69): the Monday working
hours if present, else `(9, 18)`. -/
def clinic_default_hours (clinic : ClinicP) : Nat × Nat :=
  match clinic.working_hours_mon with
  | some mon => mon
  | none => (9, 18)

/-! ## Session, environment and effect model

The session is the per-call dict of the source; a missing dict key and a
key stored as `None` are both modelled as `none` (the source only ever
reads these keys through `dict.get`, which conflates the two). -/

structure Session where
  state : String := "TRIAGE"
  intent : Option String := none
  collected : List (String × String) := []
  active_clinic : Option String := none
  last_offered_slots : Option (List Slot) := none
  selected_slot : Option Slot := none
  resch_event_id : Option String := none
  resch_event_summary : Option String := none
deriving DecidableEq, Repr

/-- `collected[k] = v` on the Python dict: overwrite in place or append. -/
def dictSet (m : List (String × String)) (k v : String) : List (String × String) :=
  match m with
  | [] => [(k, v)]
  | kv :: rest => if kv.1 = k then (k, v) :: rest else kv :: dictSet rest k v

/-- `collected.get(k, d)` on the Python dict. -/
def dictGet (m : List (String × String)) (k d : String) : String :=
  match m.find? (fun kv => kv.1 = k) with
  | some kv => kv.2
  | none => d

/-- `get_clinic` (triage.py lines 48-53). -/
def get_clinic (session : Session) : ClinicP :=
  let key := session.active_clinic.getD "demo"
  (CLINICS key).getD demoClinic

/-- An event returned by the calendar listing (a Google event dict; only
`id`, `summary` and `description` are read by the core). -/
structure CalEvent where
  id : Option String := none
  summary : Option String := none
  description : Option String := none
deriving DecidableEq, Repr

/-- One calendar mutation issued by a turn (spec §6 Calendar Client:
`createEvent` / `patchEventTime` / `deleteEvent`).

Modelled from the spec: `patch_event_time` and `delete_event` are imported
by triage.py but absent from the tree; per §6 each is a single external
mutation call carrying the credential, calendar id, event id and times. -/
inductive CalCall where
  | create (calendar_id : String) (start_dt end_dt : DateTime) (summary description : String)
  | patch (calendar_id event_id : String) (start_dt end_dt : DateTime)
  | delete (calendar_id event_id : String)
deriving DecidableEq, Repr

/-- One operation a turn performs on the session's `collected` dict
object: an in-place field write (`collected[k] = v`) or a rebinding to a
fresh empty dict (`session["collected"] = {}`).  The trace is used by the
aliasing model of the session store (see `World` below). -/
inductive CollOp where
  | write (k v : String)
  | reset
deriving DecidableEq, Repr

/-- Responses of the external collaborators for one turn.

Modelled from the spec where the source module is missing from the tree:
`redis_get_json(TOKENS_KEY)` (credential store `getCredential`, §6) is
`tokens`; `list_upcoming_events` (§6 `listUpcoming`) is `upcoming`.
`busy` is the busy-block list `parse_busy(freebusy(...))` for the 7-day
window, already converted to local wall-clock intervals; `create_result`
is `event.get("id")` of the `create_event` response (`none` for a falsy
response or a missing id). -/
structure Env where
  tokens : Bool
  now : DateTime
  busy : List Slot
  upcoming : List CalEvent
  create_result : Option String
deriving Repr

/-- The result of one turn: the reply, the updated session, the calendar
mutations issued, and the `collected`-dict operations performed. -/
structure TurnOut where
  reply : String
  sess : Session
  calls : List CalCall
  collOps : List CollOp
deriving DecidableEq, Repr

/-! ## Slot suggestion (`suggest_top_slots`, triage.py lines 176-227) -/

/-- The "calendar offline" apology (triage.py line 190 and elsewhere). -/
def offlineMsg : String :=
  "The clinic calendar is currently offline. Please try again shortly."

/-- The zero-availability apology (triage.py line 223). -/
def noSlotsMsg : String :=
  "I couldn’t find any free slots in the next 7 days. Would you like me to take your details for a call-back?"

/-- `suggest_top_slots` (triage.py lines 176-227), returning
`(raw_slots, labels, err)`.  `duration_min = 0` models Python's falsy
`None`/`0` argument (`int(duration_min or slot_minutes)`).  The raw slots
are kept as time pairs rather than the source's ISO-string dicts (the
source converts to ISO strings here and parses them back with
`fromisoformat` at the commit sites, a lossless round trip). -/
def suggest_top_slots (env : Env) (session : Session) (duration_min : Nat)
    (pref_text : String) : List Slot × List String × Option String :=
  let clinic := get_clinic session
  let slot_minutes := clinic.slot_minutes.getD 30
  let duration := if duration_min = 0 then slot_minutes else duration_min
  if !env.tokens then ([], [], some offlineMsg)
  else
    let w := next_7_days_window env.now
    let win := preference_window pref_text
    let dayh := win.getD (clinic_default_hours clinic)
    let candidates := generate_candidate_slots w.1 w.2 duration dayh.1 dayh.2
    let busy_blocks := env.busy
    let free_slots := filter_free_slots candidates busy_blocks
    let top3 := pick_first_n free_slots 3
    let top3 :=
      if top3.isEmpty && win.isSome then
        let dayh2 := clinic_default_hours clinic
        let candidates2 := generate_candidate_slots w.1 w.2 duration dayh2.1 dayh2.2
        let free_slots2 := filter_free_slots candidates2 busy_blocks
        pick_first_n free_slots2 3
      else top3
    if top3.isEmpty then ([], [], some noSlotsMsg)
    else (top3, top3.map format_slot, none)

/-- `find_event_for_patient` (triage.py lines 231-251): first upcoming
event whose description contains the caller's phone digits.

Modelled from the spec: `list_upcoming_events` is absent from the tree;
per §6 `listUpcoming` returns the upcoming events with descriptions,
supplied here as `env.upcoming`. -/
def find_event_for_patient (env : Env) (phone : String) : Option CalEvent :=
  if !env.tokens then none
  else
    let target := normalize_phone phone
    if target = "" then none
    else env.upcoming.find? (fun ev =>
      containsSub (_digits_only (ev.description.getD "")) target)

/-! ## FAQ responder (`faq_answer`, triage.py lines 255-333) -/

def faq_answer (intent : String) (user_said : String) (clinic : ClinicP) : String :=
  let t := _norm user_said
  if intent = "FAQ_PRICES" then
    (clinic.pricing_summary.getD "Pricing varies by clinic and appointment type.")
      ++ " If you tell me whether it’s an initial assessment or a follow-up, I can give a clearer estimate."
  else if intent = "FAQ_HOURS" then
    if containsSub t "weekend" || containsSub t "saturday" || containsSub t "sunday" then
      "Weekend availability depends on the clinic. Many are Monday to Friday 9am–6pm, and some offer Saturday mornings. Tell me your preferred day and I’ll check availability."
    else if containsSub t "evening" || containsSub t "late" || containsSub t "after work" then
      "Some clinics offer early morning or evening appointments, but it varies by location. Tell me what time you’re aiming for and I’ll try to find the closest match."
    else clinic.hours_summary.getD "Opening hours vary by clinic. Many are Mon–Fri 9am–6pm."
  else if intent = "FAQ_LOCATION" then
    let address := clinic.address.getD "Address depends on the clinic location."
    let parking := clinic.parking.getD ""
    if containsSub t "parking" && !(parking = "") then
      address ++ ". Parking: " ++ parking
    else if containsSub t "wheelchair" || containsSub t "accessible" then
      "Most clinics can accommodate accessibility needs. Tell me what you need and we’ll confirm."
    else address
  else if intent = "FAQ_INSURANCE" then
    let joined := String.intercalate ", " clinic.common_insurers
    let insurers := if joined = "" then "Bupa, AXA Health, Vitality, Aviva" else joined
    let note := clinic.insurance_note.getD "Coverage depends on your policy."
    note ++ " Common insurers people use in the UK include " ++ insurers
      ++ ". If you tell me your insurer name and whether you have a membership or policy number, I can note it for the clinic."
  else if intent = "FAQ_SERVICES" then
    if !clinic.services.isEmpty then
      "This clinic typically offers: " ++ String.intercalate ", " clinic.services
        ++ ". What would you like help with?"
    else
      "Most MSK clinics help with assessment and treatment plans for pain and injuries. If you tell me what’s going on, I can book the right appointment type."
  else if intent = "FAQ_CONDITIONS" then
    "Clinics commonly see issues like back pain, neck/shoulder pain, sports injuries, joint pain, and post-operative rehab. If you tell me where it hurts and how long it’s been going on, I can help you book."
  else if intent = "FAQ_REFERRAL" then
    "A GP referral isn’t always required for private appointments, but some insurance policies do require one. If you’re using insurance, it’s worth checking your policy conditions."
  else if intent = "FAQ_FIRST_VISIT" then
    "For a first visit: " ++ (clinic.what_to_bring.getD "Bring photo ID and any relevant notes/scans.")
      ++ " Arriving 5–10 minutes early is ideal."
  else if intent = "FAQ_POLICIES" then
    clinic.cancellation_policy.getD "Cancellation policy varies by clinic."
  else if intent = "FAQ_PRIVACY" then
    "Your information is treated as confidential and handled in line with data protection rules. For the demo, we store only what’s needed to manage your booking and provide a smooth service."
  else
    "Sure — can you tell me a bit more about what you need so I can help accurately?"

/-! ## Main state machine (`triage_turn`, triage.py lines 337-656) -/

/-- Python `\w`: a word character (ASCII approximation). -/
def isWordChar (c : Char) : Bool := c.isAlphanum || c = '_'

/-- `re.search(r"\b(1|2|3)\b", t)` scanning with the previous character:
the first standalone digit 1, 2 or 3 (word boundaries on both sides). -/
def findPickDigit : Option Char → List Char → Option Nat
  | _, [] => none
  | prev, c :: rest =>
    if (c = '1' || c = '2' || c = '3')
        && (match prev with | some p => !isWordChar p | none => true)
        && (match rest with | d :: _ => !isWordChar d | [] => true) then
      some (c.toNat - '0'.toNat)
    else findPickDigit (some c) rest

/-- The digit 1-3 matched by `re.search(r"\b(1|2|3)\b", t)`, if any. -/
def pick_digit (t : String) : Option Nat := findPickDigit none t.data

/-- Membership of the affirmative tuple
`("yes", "y", "yeah", "confirm", "ok")` (triage.py lines 438, 479, 571). -/
def isAffirm (n : String) : Bool :=
  n = "yes" || n = "y" || n = "yeah" || n = "confirm" || n = "ok"

/-- The re-prompt for an invalid or absent slot choice. -/
def pickReprompt : String := "Please say 1, 2, or 3."

/-- The "I can do: 1) … 2) … 3) …" offer line (triage.py lines 421 and
550-552).  Python indexes `labels[0]`, `labels[1]`, `labels[2]`
unconditionally, raising `IndexError` when fewer than three labels exist;
the `Option` result records that escape. -/
def offerReply (labels : List String) : Option String :=
  match labels[0]?, labels[1]?, labels[2]? with
  | some l0, some l1, some l2 =>
    some ("I can do: 1) " ++ l0 ++ ", 2) " ++ l1 ++ ", 3) " ++ l2 ++ ". Say 1, 2, or 3.")
  | _, _, _ => none

/-! `triage_turn` (triage.py lines 337-656) is embedded as a dispatcher
over one handler per state, mirroring the source's if-chain; each handler
is the body of the corresponding `if state == …:` block.  `none` is an
uncaught Python exception escaping the turn (the only raise sites
reachable in the model are the `labels[1]`/`labels[2]` accesses of the two
offer states; on that path the source's in-memory session mutations are
discarded, because the webhook never reaches `save_session`, and no
`collected` operation precedes the raise). -/

/-- triage.py lines 365-373 (`RESCH_CHOICE`). -/
def resch_choice_turn (user_said : String) (session : Session) : Option TurnOut :=
  if containsSub (_norm user_said) "cancel" then
    some ⟨"Okay — to cancel, I just need to confirm who you are. What\x27s your full name?",
      { session with collected := dictSet session.collected "resch_action" "CANCEL", state := "RESCH_NAME" },
      [], [CollOp.write "resch_action" "CANCEL"]⟩
  else
    some ⟨"Okay — to reschedule, I just need to confirm who you are. What\x27s your full name?",
      { session with collected := dictSet session.collected "resch_action" "RESCHEDULE", state := "RESCH_NAME" },
      [], [CollOp.write "resch_action" "RESCHEDULE"]⟩

/-- triage.py lines 375-378 (`RESCH_NAME`). -/
def resch_name_turn (user_said : String) (session : Session) : Option TurnOut :=
  some ⟨"Thanks. What\x27s the phone number used for the booking?",
    { session with collected := dictSet session.collected "name" (pyStrip user_said), state := "RESCH_PHONE" },
    [], [CollOp.write "name" (pyStrip user_said)]⟩

/-- triage.py lines 380-386 (`RESCH_PHONE`). -/
def resch_phone_turn (user_said : String) (session : Session) : Option TurnOut :=
  if !is_valid_phone (pyStrip user_said) then
    some ⟨"Sorry — I didn’t catch a valid phone number. Please say the phone number again.", session, [], []⟩
  else
    some ⟨"Okay — one moment while I look up your appointment.",
      { session with collected := dictSet session.collected "phone" (normalize_phone (pyStrip user_said)), state := "RESCH_FIND" },
      [], [CollOp.write "phone" (normalize_phone (pyStrip user_said))]⟩

/-- triage.py lines 388-411 (`RESCH_FIND`). -/
def resch_find_turn (env : Env) (session : Session) : Option TurnOut :=
  if !env.tokens then
    some ⟨offlineMsg, { session with state := "TRIAGE" }, [], []⟩
  else
    match find_event_for_patient env (dictGet session.collected "phone" "") with
    | none =>
      some ⟨"I couldn’t find a matching appointment in the next 30 days. For the demo, please book first and then try reschedule.",
        { session with state := "TRIAGE" }, [], []⟩
    | some ev =>
      if dictGet session.collected "resch_action" "" = "CANCEL" then
        some ⟨"I found your appointment: " ++ ev.summary.getD "Appointment" ++ ". Do you want to cancel it? Say yes or no.",
          { session with
              resch_event_id := ev.id,
              resch_event_summary := some (ev.summary.getD "Appointment"),
              state := "CANCEL_CONFIRM" }, [], []⟩
      else
        some ⟨"I found your appointment. Let me check new availability.",
          { session with
              resch_event_id := ev.id,
              resch_event_summary := some (ev.summary.getD "Appointment"),
              state := "RESCH_OFFER_SLOTS" }, [], []⟩

/-- triage.py lines 413-421 (`RESCH_OFFER_SLOTS`). -/
def resch_offer_turn (env : Env) (session : Session) : Option TurnOut :=
  match suggest_top_slots env session ((get_clinic session).slot_minutes.getD 30) "" with
  | (raw_slots, labels, err) =>
    match err with
    | some e => some ⟨e, { session with state := "TRIAGE" }, [], []⟩
    | none =>
      match offerReply labels with
      | some reply =>
        some ⟨reply, { session with last_offered_slots := some raw_slots, state := "RESCH_PICK_SLOT" }, [], []⟩
      | none => none

/-- triage.py lines 423-435 (`RESCH_PICK_SLOT`). -/
def resch_pick_turn (user_said : String) (session : Session) : Option TurnOut :=
  match pick_digit (_norm user_said) with
  | none => some ⟨pickReprompt, session, [], []⟩
  | some d =>
    match (session.last_offered_slots.getD [])[d - 1]? with
    | none => some ⟨pickReprompt, session, [], []⟩
    | some sl =>
      some ⟨"Great. Please confirm rescheduling to option " ++ toString (d - 1 + 1) ++ ". Say yes or no.",
        { session with selected_slot := some sl, state := "RESCH_CONFIRM" }, [], []⟩

/-- triage.py lines 437-476 (`RESCH_CONFIRM`). -/
def resch_confirm_turn (env : Env) (user_said : String) (session : Session) : Option TurnOut :=
  if !isAffirm (_norm user_said) then
    some ⟨"No problem. What would you like to do instead?",
      { session with
          state := "TRIAGE", collected := [], last_offered_slots := none,
          selected_slot := none, resch_event_id := none, resch_event_summary := none },
      [], [CollOp.reset]⟩
  else if !env.tokens then
    some ⟨offlineMsg, { session with state := "TRIAGE" }, [], []⟩
  else
    match session.resch_event_id, session.selected_slot with
    | some event_id, some chosen =>
      if event_id = "" then
        some ⟨"Something went wrong rescheduling. Please try again.",
          { session with state := "TRIAGE" }, [], []⟩
      else
        some ⟨"All set — your appointment has been rescheduled.",
          { session with
              state := "TRIAGE", collected := [], last_offered_slots := none,
              selected_slot := none, resch_event_id := none, resch_event_summary := none },
          [CalCall.patch ((get_clinic session).calendar_id.getD "primary") event_id chosen.1 chosen.2],
          [CollOp.reset]⟩
    | _, _ =>
      some ⟨"Something went wrong rescheduling. Please try again.",
        { session with state := "TRIAGE" }, [], []⟩

/-- triage.py lines 478-507 (`CANCEL_CONFIRM`). -/
def cancel_confirm_turn (env : Env) (user_said : String) (session : Session) : Option TurnOut :=
  if !isAffirm (_norm user_said) then
    some ⟨"Okay — I won’t cancel it. What would you like to do instead?",
      { session with
          state := "TRIAGE", collected := [],
          resch_event_id := none, resch_event_summary := none },
      [], [CollOp.reset]⟩
  else if !env.tokens then
    some ⟨offlineMsg, { session with state := "TRIAGE" }, [], []⟩
  else
    match session.resch_event_id with
    | some event_id =>
      if event_id = "" then
        some ⟨"I couldn’t identify the appointment to cancel. Please try again.",
          { session with state := "TRIAGE" }, [], []⟩
      else
        some ⟨"Done — your appointment has been cancelled.",
          { session with
              state := "TRIAGE", collected := [],
              resch_event_id := none, resch_event_summary := none },
          [CalCall.delete ((get_clinic session).calendar_id.getD "primary") event_id],
          [CollOp.reset]⟩
    | none =>
      some ⟨"I couldn’t identify the appointment to cancel. Please try again.",
        { session with state := "TRIAGE" }, [], []⟩

/-- triage.py lines 512-515 (`BOOK_PATIENT_TYPE`). -/
def book_patient_type_turn (user_said : String) (session : Session) : Option TurnOut :=
  some ⟨"Thanks. What\x27s your full name?",
    { session with collected := dictSet session.collected "patient_type" (pyStrip user_said), state := "BOOK_NAME" },
    [], [CollOp.write "patient_type" (pyStrip user_said)]⟩

/-- triage.py lines 517-520 (`BOOK_NAME`). -/
def book_name_turn (user_said : String) (session : Session) : Option TurnOut :=
  some ⟨"And what\x27s the best phone number for the appointment?",
    { session with collected := dictSet session.collected "name" (pyStrip user_said), state := "BOOK_PHONE" },
    [], [CollOp.write "name" (pyStrip user_said)]⟩

/-- triage.py lines 522-528 (`BOOK_PHONE`). -/
def book_phone_turn (user_said : String) (session : Session) : Option TurnOut :=
  if !is_valid_phone (pyStrip user_said) then
    some ⟨"Sorry — I didn’t catch a valid phone number. Please say the phone number again.", session, [], []⟩
  else
    some ⟨"What is the appointment for? For example back pain, knee injury, or a follow-up.",
      { session with collected := dictSet session.collected "phone" (normalize_phone (pyStrip user_said)), state := "BOOK_REASON" },
      [], [CollOp.write "phone" (normalize_phone (pyStrip user_said))]⟩

/-- triage.py lines 530-533 (`BOOK_REASON`). -/
def book_reason_turn (user_said : String) (session : Session) : Option TurnOut :=
  some ⟨"When would you prefer? You can say tomorrow morning, Friday afternoon, or next week.",
    { session with collected := dictSet session.collected "reason" (pyStrip user_said), state := "BOOK_TIME_PREF" },
    [], [CollOp.write "reason" (pyStrip user_said)]⟩

/-- triage.py lines 535-538 (`BOOK_TIME_PREF`). -/
def book_time_pref_turn (user_said : String) (session : Session) : Option TurnOut :=
  some ⟨"Great — let me check availability.",
    { session with collected := dictSet session.collected "time_pref" (pyStrip user_said), state := "BOOK_OFFER_SLOTS" },
    [], [CollOp.write "time_pref" (pyStrip user_said)]⟩

/-- triage.py lines 540-554 (`BOOK_OFFER_SLOTS`). -/
def book_offer_turn (env : Env) (session : Session) : Option TurnOut :=
  match suggest_top_slots env session ((get_clinic session).slot_minutes.getD 30)
      (dictGet session.collected "time_pref" "") with
  | (raw_slots, labels, err) =>
    match err with
    | some e => some ⟨e, { session with state := "TRIAGE" }, [], []⟩
    | none =>
      match offerReply labels with
      | some reply =>
        some ⟨reply, { session with last_offered_slots := some raw_slots, state := "BOOK_PICK_SLOT" }, [], []⟩
      | none => none

/-- triage.py lines 556-568 (`BOOK_PICK_SLOT`). -/
def book_pick_turn (user_said : String) (session : Session) : Option TurnOut :=
  match pick_digit (_norm user_said) with
  | none => some ⟨pickReprompt, session, [], []⟩
  | some d =>
    match (session.last_offered_slots.getD [])[d - 1]? with
    | none => some ⟨pickReprompt, session, [], []⟩
    | some sl =>
      some ⟨"Great. Please confirm booking for option " ++ toString (d - 1 + 1) ++ ". Say yes or no.",
        { session with selected_slot := some sl, state := "BOOK_CONFIRM_SLOT" }, [], []⟩

/-- triage.py lines 570-620 (`BOOK_CONFIRM_SLOT`). -/
def book_confirm_turn (env : Env) (user_said : String) (session : Session) : Option TurnOut :=
  if !isAffirm (_norm user_said) then
    some ⟨"No problem. What would you like to do instead?",
      { session with
          state := "TRIAGE", collected := [], last_offered_slots := none,
          selected_slot := none },
      [], [CollOp.reset]⟩
  else if !env.tokens then
    some ⟨offlineMsg, { session with state := "TRIAGE" }, [], []⟩
  else
    match session.selected_slot with
    | none =>
      some ⟨"Something went wrong selecting the slot. Please try again.",
        { session with state := "TRIAGE" }, [], []⟩
    | some chosen =>
      some ⟨(if env.create_result.isNone then
            "I couldn’t create the booking. Please try again."
          else "You’re booked. See you then."),
        { session with
            state := "TRIAGE", collected := [],
            last_offered_slots := none, selected_slot := none },
        [CalCall.create ((get_clinic session).calendar_id.getD "primary") chosen.1 chosen.2
          (dictGet session.collected "name" "Patient" ++ " – " ++ dictGet session.collected "reason" "Appointment")
          ("Clinic: " ++ (get_clinic session).display_name.getD "Clinic" ++ "\n"
            ++ "Patient type: " ++ dictGet session.collected "patient_type" "" ++ "\n"
            ++ "Phone: " ++ dictGet session.collected "phone" "" ++ "\n"
            ++ "Reason: " ++ dictGet session.collected "reason" "" ++ "\n"
            ++ "Preference: " ++ dictGet session.collected "time_pref" "" ++ "\n"
            ++ "Booked via RochSolutions AI receptionist (demo).")],
        [CollOp.reset]⟩

/-- triage.py lines 622-656: the `TRIAGE`/fallthrough dispatch on the
classified intent. -/
def triage_intent_turn (user_said : String) (session : Session) : Option TurnOut :=
  if detect_intent user_said = "BOOK" then
    some ⟨"Sure — are you a new or returning patient?",
      { session with
          intent := some (detect_intent user_said),
          collected := [], last_offered_slots := none, selected_slot := none,
          resch_event_id := none, resch_event_summary := none, state := "BOOK_PATIENT_TYPE" },
      [], [CollOp.reset]⟩
  else if detect_intent user_said = "RESCHEDULE" then
    some ⟨"Sure — do you want to reschedule or cancel your appointment?",
      { session with
          intent := some (detect_intent user_said),
          collected := [], last_offered_slots := none, selected_slot := none,
          resch_event_id := none, resch_event_summary := none, state := "RESCH_CHOICE" },
      [], [CollOp.reset]⟩
  else if (detect_intent user_said).startsWith "FAQ_" then
    some ⟨faq_answer (detect_intent user_said) user_said (get_clinic session),
      { session with intent := some (detect_intent user_said) }, [], []⟩
  else if detect_intent user_said = "HUMAN" then
    some ⟨"Okay. Please tell me your name and phone number and the clinic will call you back.",
      { session with intent := some (detect_intent user_said) }, [], []⟩
  else
    some ⟨"I can help with booking, rescheduling or cancelling, prices, insurance, opening hours, location, or general questions. What would you like to do?",
      { session with intent := some (detect_intent user_said) }, [], []⟩

/-- `triage_turn` (triage.py lines 337-656): the empty-utterance guard,
the global restart and repeat commands, then dispatch on the state. -/
def triage_turn (env : Env) (user_said : String) (session : Session) :
    Option TurnOut :=
  if user_said = "" then
    some ⟨"I didn’t catch that. What would you like to do?", session, [], []⟩
  else if _norm user_said = "restart" || _norm user_said = "start over" || _norm user_said = "reset" then
    some ⟨"Okay — starting over. What would you like to do?",
      { session with
          state := "TRIAGE", collected := [], last_offered_slots := none,
          selected_slot := none, resch_event_id := none, resch_event_summary := none },
      [], [CollOp.reset]⟩
  else if (_norm user_said = "repeat" || _norm user_said = "say again")
      && (session.state = "BOOK_PICK_SLOT" || session.state = "RESCH_PICK_SLOT") then
    some ⟨"Sure. Please say 1, 2, or 3.", session, [], []⟩
  else if session.state = "RESCH_CHOICE" then resch_choice_turn user_said session
  else if session.state = "RESCH_NAME" then resch_name_turn user_said session
  else if session.state = "RESCH_PHONE" then resch_phone_turn user_said session
  else if session.state = "RESCH_FIND" then resch_find_turn env session
  else if session.state = "RESCH_OFFER_SLOTS" then resch_offer_turn env session
  else if session.state = "RESCH_PICK_SLOT" then resch_pick_turn user_said session
  else if session.state = "RESCH_CONFIRM" then resch_confirm_turn env user_said session
  else if session.state = "CANCEL_CONFIRM" then cancel_confirm_turn env user_said session
  else if session.state = "BOOK_PATIENT_TYPE" then book_patient_type_turn user_said session
  else if session.state = "BOOK_NAME" then book_name_turn user_said session
  else if session.state = "BOOK_PHONE" then book_phone_turn user_said session
  else if session.state = "BOOK_REASON" then book_reason_turn user_said session
  else if session.state = "BOOK_TIME_PREF" then book_time_pref_turn user_said session
  else if session.state = "BOOK_OFFER_SLOTS" then book_offer_turn env session
  else if session.state = "BOOK_PICK_SLOT" then book_pick_turn user_said session
  else if session.state = "BOOK_CONFIRM_SLOT" then book_confirm_turn env user_said session
  else triage_intent_turn user_said session

/-! ## Spec-side intent classifier (spec §4.1)

Stated from the specification's words for comparison with
`detect_intent`: an ordered table of (category, keyword set) pairs, first
matching category wins, `UNKNOWN` for normalized-empty input, `OTHER`
when nothing matches. -/

def intentTable : List (String × List String) :=
  [("BOOK", ["book", "booking", "appointment", "schedule", "available", "slot", "availability"]),
   ("RESCHEDULE", ["reschedule", "change", "move", "cancel", "cancellation", "rebook", "postpone"]),
   ("FAQ_PRICES", ["price", "cost", "fee", "how much", "charge", "rates", "pricing", "payment", "pay"]),
   ("FAQ_HOURS", ["hours", "open", "close", "opening", "when are you open", "weekend", "saturday", "sunday"]),
   ("FAQ_LOCATION", ["address", "location", "where are you", "parking", "postcode", "directions", "near", "map"]),
   ("FAQ_INSURANCE", ["insurance", "insured", "bupa", "axa", "vitality", "aviva", "wpa", "cigna", "claim", "receipt"]),
   ("FAQ_SERVICES", ["physio", "physiotherapy", "chiro", "chiropractor", "massage", "sports therapy", "rehab", "pain", "injury"]),
   ("FAQ_CONDITIONS", ["back pain", "neck", "shoulder", "knee", "ankle", "hip", "sciatica", "sprain", "strain", "tendon", "post op", "surgery"]),
   ("FAQ_REFERRAL", ["referral", "gp", "doctor", "nhs", "letter", "prescription"]),
   ("FAQ_FIRST_VISIT", ["what should i bring", "bring", "what do i wear", "clothes", "arrive", "late", "parking"]),
   ("FAQ_POLICIES", ["cancel policy", "cancellation policy", "late fee", "refund", "missed appointment"]),
   ("FAQ_PRIVACY", ["privacy", "data", "gdpr", "recording", "confidential"]),
   ("HUMAN", ["human", "person", "receptionist", "someone", "call me back", "speak to"])]

/-- First matching category of the ordered table, else `"OTHER"`. -/
def firstMatch (t : String) : List (String × List String) → String
  | [] => "OTHER"
  | entry :: rest => if _contains_any t entry.2 then entry.1 else firstMatch t rest

/-- The classifier as the spec states it (§4.1). -/
def detectIntentSpec (text : String) : String :=
  let t := _norm text
  if t = "" then "UNKNOWN" else firstMatch t intentTable

/-! ## Session store aliasing model (`app/storage/redis_store.py`)

`DEFAULT_SESSION` is a module-level dict whose `"collected"` value is one
shared dict object; `get_session` returns `DEFAULT_SESSION.copy()` — a
SHALLOW copy — for every missing/expired call id, so every fresh session
holds a reference to that same `collected` object.  The model makes the
dict identity explicit: a `World` heap maps addresses to dict contents,
address 0 is `DEFAULT_SESSION["collected"]`, and a session carries the
address of its `collected` dict.  A `CollOp.write` mutates the addressed
dict in place; a `CollOp.reset` (`session["collected"] = {}`) rebinds the
session to a freshly allocated dict. -/

structure HSession where
  state : String
  intent : Option String
  collectedRef : Nat
  active_clinic : Option String
  last_offered_slots : Option (List Slot)
  selected_slot : Option Slot
  resch_event_id : Option String
  resch_event_summary : Option String
deriving DecidableEq, Repr

structure World where
  heap : Nat → List (String × String)
  nextRef : Nat

/-- The pristine store: `DEFAULT_SESSION["collected"]` is the empty dict
at address 0; addresses ≥ 1 are free. -/
def initialWorld : World := { heap := fun _ => [], nextRef := 1 }

/-- `get_session` for a missing/expired call id (redis_store.py lines
19-33): `DEFAULT_SESSION.copy()` — state `"TRIAGE"`, no intent, and the
SHARED `collected` dict at address 0. -/
def get_session_fresh : HSession :=
  { state := "TRIAGE", intent := none, collectedRef := 0, active_clinic := none,
    last_offered_slots := none, selected_slot := none,
    resch_event_id := none, resch_event_summary := none }

/-- The session value an observer sees: the per-call fields plus the
content of the referenced `collected` dict. -/
def viewSession (w : World) (hs : HSession) : Session :=
  { state := hs.state, intent := hs.intent, collected := w.heap hs.collectedRef,
    active_clinic := hs.active_clinic, last_offered_slots := hs.last_offered_slots,
    selected_slot := hs.selected_slot, resch_event_id := hs.resch_event_id,
    resch_event_summary := hs.resch_event_summary }

/-- Apply a turn's `collected`-dict operations to the heap, starting from
the dict at address `r`; returns the new world and the address the
session ends up bound to. -/
def runOps : World → Nat → List CollOp → World × Nat
  | w, r, [] => (w, r)
  | w, r, CollOp.write k v :: ops =>
    runOps { w with heap := fun a => if a = r then dictSet (w.heap r) k v else w.heap a } r ops
  | w, _, CollOp.reset :: ops =>
    let fresh := w.nextRef
    runOps { heap := fun a => if a = fresh then [] else w.heap a, nextRef := fresh + 1 } fresh ops

/-- Rebuild the per-call fields from a turn's output session, bound to
the `collected` dict at address `r`. -/
def toHSession (s : Session) (r : Nat) : HSession :=
  { state := s.state, intent := s.intent, collectedRef := r,
    active_clinic := s.active_clinic, last_offered_slots := s.last_offered_slots,
    selected_slot := s.selected_slot, resch_event_id := s.resch_event_id,
    resch_event_summary := s.resch_event_summary }

/-- One turn against the store: run `triage_turn` on the observed session
value and replay its `collected` operations on the heap.  A `none` turn is
an escaped exception: the webhook never reaches `save_session`, and no
crashing branch performs a `collected` operation before raising, so the
store is unchanged. -/
def heapTurn (env : Env) (u : String) : HSession × World → HSession × World
  | (hs, w) =>
    match triage_turn env u (viewSession w hs) with
    | none => (hs, w)
    | some out =>
      let rw := runOps w hs.collectedRef out.collOps
      (toHSession out.sess rw.2, rw.1)

/-- A whole call: any sequence of turns (each with its own collaborator
responses) applied to one session. -/
def runTurns : List (Env × String) → HSession × World → HSession × World
  | [], sw => sw
  | eu :: ts, sw => runTurns ts (heapTurn eu.1 eu.2 sw)

/-! ## Properties under test, and concrete scenario data -/

/-- The selected-slot bookkeeping one turn guarantees (claim C9, amended):
a changed, non-null `selected_slot` is an element of the current
`last_offered_slots`, and a turn that nulls a previously present
`last_offered_slots` also nulls `selected_slot`. -/
def SelectedInv (s : Session) (out : TurnOut) : Prop :=
  (out.sess.selected_slot ≠ s.selected_slot → out.sess.selected_slot ≠ none →
    ∃ sl slots, out.sess.selected_slot = some sl
      ∧ out.sess.last_offered_slots = some slots ∧ sl ∈ slots)
  ∧ (s.last_offered_slots ≠ none → out.sess.last_offered_slots = none →
    out.sess.selected_slot = none)

/-- The store-isolation invariant: the shared `DEFAULT_SESSION` collected
dict (address 0) still holds its pristine empty content, and a session
still aliased to it is still in the `TRIAGE` state. -/
def StoreInv (hw : HSession × World) : Prop :=
  (hw.1.collectedRef = 0 → hw.1.state = "TRIAGE") ∧ hw.2.heap 0 = [] ∧ 0 < hw.2.nextRef

/-- C1 scenario: token present, and a calendar that is busy from
Monday 09:30 through the end of the 7-day window, leaving exactly one
free 30-minute slot (Monday 09:00-09:30). -/
def envC1 : Env :=
  { tokens := true, now := 9 * 3600, busy := [(9 * 3600 + 1800, 7 * 86400 + 9 * 3600)],
    upcoming := [], create_result := some "evt1" }

/-- C1 scenario: a booking flow that has reached `BOOK_OFFER_SLOTS` with
no stated time preference. -/
def sessC1 : Session :=
  { state := "BOOK_OFFER_SLOTS",
    collected := [("patient_type", "new patient"), ("name", "Jane Doe"),
      ("phone", "07123456789"), ("reason", "back pain"), ("time_pref", "")] }

/-- C4 scenario: calendar busy from Monday 12:00 to the end of the 7-day
window, so the evening preference window (17-20) has no free slot but the
default working hours (9-18) still do. -/
def envC4 : Env :=
  { tokens := true, now := 0, busy := [(43200, 604800)], upcoming := [],
    create_result := none }

/-- C4 scenario: a fresh session of the demo clinic. -/
def sessC4 : Session := {}

/-- C5 scenario: credential present, empty calendar. -/
def envC5 : Env :=
  { tokens := true, now := 0, busy := [], upcoming := [], create_result := some "evt1" }

/-- C5 scenario: a session awaiting the caller's name. -/
def sessC5 : Session := { state := "BOOK_NAME" }

/-- C7 scenario: credential present, create call succeeding. -/
def envC7 : Env :=
  { tokens := true, now := 0, busy := [], upcoming := [], create_result := some "evt1" }

/-- C7 scenario: a fully collected booking at the final confirmation. -/
def sessC7 : Session :=
  { state := "BOOK_CONFIRM_SLOT",
    collected := [("patient_type", "new patient"), ("name", "Jane Doe"),
      ("phone", "07123456789"), ("reason", "back pain"), ("time_pref", "morning")],
    last_offered_slots := some [(32400, 34200), (34200, 36000)],
    selected_slot := some (34200, 36000) }

/-- C8 scenario environment. -/
def envC8 : Env :=
  { tokens := true, now := 0, busy := [], upcoming := [], create_result := some "evt1" }

/-- C8 witness scenario: a booking confirmation the caller declines. -/
def sessC8 : Session :=
  { state := "BOOK_CONFIRM_SLOT", collected := [("name", "Jane Doe")],
    last_offered_slots := some [(0, 1800)], selected_slot := some (0, 1800) }

/-- C8 counterexample scenario: a booking confirmation receiving the
empty utterance. -/
def sessC8empty : Session :=
  { state := "BOOK_CONFIRM_SLOT", selected_slot := some (0, 1800) }

/-- C8 counterexample scenario: a cancel confirmation with stale slot
working data in the session. -/
def sessC8cancel : Session :=
  { state := "CANCEL_CONFIRM", last_offered_slots := some [(0, 1800)],
    resch_event_id := some "evt9" }

/-- C9 scenario environment: empty calendar, so the offer states find
three free slots. -/
def envC9 : Env :=
  { tokens := true, now := 0, busy := [], upcoming := [], create_result := some "evt1" }

/-- C9 counterexample scenario: a session at `BOOK_OFFER_SLOTS` carrying a
stale `selected_slot` from an earlier interaction. -/
def sessC9 : Session :=
  { state := "BOOK_OFFER_SLOTS", collected := [("time_pref", "")],
    selected_slot := some (1, 2) }

/-- C9 witness scenario: a pick state with two offered slots. -/
def sessC9w : Session :=
  { state := "BOOK_PICK_SLOT",
    last_offered_slots := some [(32400, 34200), (34200, 36000)] }

/-- C9 witness: the turn output of saying "2" in `sessC9w`. -/
def outC9w : TurnOut :=
  { reply := "Great. Please confirm booking for option 2. Say yes or no.",
    sess := { sessC9w with selected_slot := some (34200, 36000), state := "BOOK_CONFIRM_SLOT" },
    calls := [], collOps := [] }

/-! ## Helper lemmas -/

set_option maxRecDepth 40000

theorem affirm5 {n : String} (h : isAffirm n = true) :
    n = "yes" ∨ n = "y" ∨ n = "yeah" ∨ n = "confirm" ∨ n = "ok" := by
  have h2 := h
  simp only [isAffirm, Bool.or_eq_true, decide_eq_true_eq] at h2
  tauto

theorem turn_empty (env : Env) (s : Session) :
    triage_turn env "" s
      = some ⟨"I didn’t catch that. What would you like to do?", s, [], []⟩ := rfl

theorem turn_restart (env : Env) (u : String) (s : Session) (hne : ¬ u = "")
    (hrest : (_norm u = "restart" || _norm u = "start over" || _norm u = "reset") = true) :
    triage_turn env u s = some ⟨"Okay — starting over. What would you like to do?",
      { s with
          state := "TRIAGE", collected := [], last_offered_slots := none,
          selected_slot := none, resch_event_id := none, resch_event_summary := none },
      [], [CollOp.reset]⟩ := by
  simp only [triage_turn]
  rw [if_neg hne, hrest]
  simp

theorem turn_repeat (env : Env) (u : String) (s : Session) (hne : ¬ u = "")
    (hrest : (_norm u = "restart" || _norm u = "start over" || _norm u = "reset") = false)
    (hrep : ((_norm u = "repeat" || _norm u = "say again")
      && (s.state = "BOOK_PICK_SLOT" || s.state = "RESCH_PICK_SLOT")) = true) :
    triage_turn env u s = some ⟨"Sure. Please say 1, 2, or 3.", s, [], []⟩ := by
  simp only [triage_turn]
  rw [if_neg hne, hrest, hrep]
  simp

theorem triage_turn_dispatch (env : Env) (u : String) (s : Session) (hne : ¬ u = "")
    (hrest : (_norm u = "restart" || _norm u = "start over" || _norm u = "reset") = false)
    (hrep : ((_norm u = "repeat" || _norm u = "say again")
      && (s.state = "BOOK_PICK_SLOT" || s.state = "RESCH_PICK_SLOT")) = false) :
    triage_turn env u s =
      (if s.state = "RESCH_CHOICE" then resch_choice_turn u s
       else if s.state = "RESCH_NAME" then resch_name_turn u s
       else if s.state = "RESCH_PHONE" then resch_phone_turn u s
       else if s.state = "RESCH_FIND" then resch_find_turn env s
       else if s.state = "RESCH_OFFER_SLOTS" then resch_offer_turn env s
       else if s.state = "RESCH_PICK_SLOT" then resch_pick_turn u s
       else if s.state = "RESCH_CONFIRM" then resch_confirm_turn env u s
       else if s.state = "CANCEL_CONFIRM" then cancel_confirm_turn env u s
       else if s.state = "BOOK_PATIENT_TYPE" then book_patient_type_turn u s
       else if s.state = "BOOK_NAME" then book_name_turn u s
       else if s.state = "BOOK_PHONE" then book_phone_turn u s
       else if s.state = "BOOK_REASON" then book_reason_turn u s
       else if s.state = "BOOK_TIME_PREF" then book_time_pref_turn u s
       else if s.state = "BOOK_OFFER_SLOTS" then book_offer_turn env s
       else if s.state = "BOOK_PICK_SLOT" then book_pick_turn u s
       else if s.state = "BOOK_CONFIRM_SLOT" then book_confirm_turn env u s
       else triage_intent_turn u s) := by
  simp only [triage_turn]
  rw [if_neg hne, hrest, hrep]
  simp

theorem resch_choice_selinv (u : String) (s : Session) (out : TurnOut)
    (h : resch_choice_turn u s = some out) : SelectedInv s out := by
  simp only [resch_choice_turn] at h
  repeat' split at h
  all_goals (injection h with h2; subst h2)
  all_goals exact ⟨fun hchg hnn => absurd rfl hchg, fun hprev hnow => by simp_all⟩

theorem resch_name_selinv (u : String) (s : Session) (out : TurnOut)
    (h : resch_name_turn u s = some out) : SelectedInv s out := by
  simp only [resch_name_turn] at h
  injection h with h2; subst h2
  exact ⟨fun hchg hnn => absurd rfl hchg, fun hprev hnow => by simp_all⟩

theorem resch_phone_selinv (u : String) (s : Session) (out : TurnOut)
    (h : resch_phone_turn u s = some out) : SelectedInv s out := by
  simp only [resch_phone_turn] at h
  repeat' split at h
  all_goals (injection h with h2; subst h2)
  all_goals exact ⟨fun hchg hnn => absurd rfl hchg, fun hprev hnow => by simp_all⟩

theorem resch_find_selinv (env : Env) (s : Session) (out : TurnOut)
    (h : resch_find_turn env s = some out) : SelectedInv s out := by
  simp only [resch_find_turn] at h
  repeat' split at h
  all_goals (injection h with h2; subst h2)
  all_goals exact ⟨fun hchg hnn => absurd rfl hchg, fun hprev hnow => by simp_all⟩

theorem resch_offer_selinv (env : Env) (s : Session) (out : TurnOut)
    (h : resch_offer_turn env s = some out) : SelectedInv s out := by
  simp only [resch_offer_turn] at h
  repeat' split at h
  all_goals first
    | (injection h with h2; subst h2;
       refine ⟨fun hchg hnn => ?_, fun hprev hnow => ?_⟩ <;> simp_all)
    | injection h

theorem resch_pick_selinv (u : String) (s : Session) (out : TurnOut)
    (h : resch_pick_turn u s = some out) : SelectedInv s out := by
  simp only [resch_pick_turn] at h
  split at h
  · injection h with h2; subst h2
    exact ⟨fun hchg hnn => absurd rfl hchg, fun hprev hnow => by simp_all⟩
  · split at h
    · injection h with h2; subst h2
      exact ⟨fun hchg hnn => absurd rfl hchg, fun hprev hnow => by simp_all⟩
    · rename_i d hd sl hsl
      injection h with h2; subst h2
      refine ⟨fun hchg hnn => ?_, fun hprev hnow => ?_⟩
      · rcases hl : s.last_offered_slots with _ | slots
        · rw [hl] at hsl
          simp at hsl
        · rw [hl, Option.getD_some] at hsl
          exact ⟨sl, slots, rfl, by simp [hl], List.getElem?_mem hsl⟩
      · simp_all

theorem resch_confirm_selinv (env : Env) (u : String) (s : Session) (out : TurnOut)
    (h : resch_confirm_turn env u s = some out) : SelectedInv s out := by
  simp only [resch_confirm_turn] at h
  repeat' split at h
  all_goals (injection h with h2; subst h2)
  all_goals refine ⟨fun hchg hnn => ?_, fun hprev hnow => ?_⟩
  all_goals simp_all

theorem cancel_confirm_selinv (env : Env) (u : String) (s : Session) (out : TurnOut)
    (h : cancel_confirm_turn env u s = some out) : SelectedInv s out := by
  simp only [cancel_confirm_turn] at h
  repeat' split at h
  all_goals (injection h with h2; subst h2)
  all_goals refine ⟨fun hchg hnn => ?_, fun hprev hnow => ?_⟩
  all_goals simp_all

theorem book_patient_type_selinv (u : String) (s : Session) (out : TurnOut)
    (h : book_patient_type_turn u s = some out) : SelectedInv s out := by
  simp only [book_patient_type_turn] at h
  injection h with h2; subst h2
  exact ⟨fun hchg hnn => absurd rfl hchg, fun hprev hnow => by simp_all⟩

theorem book_name_selinv (u : String) (s : Session) (out : TurnOut)
    (h : book_name_turn u s = some out) : SelectedInv s out := by
  simp only [book_name_turn] at h
  injection h with h2; subst h2
  exact ⟨fun hchg hnn => absurd rfl hchg, fun hprev hnow => by simp_all⟩

theorem book_phone_selinv (u : String) (s : Session) (out : TurnOut)
    (h : book_phone_turn u s = some out) : SelectedInv s out := by
  simp only [book_phone_turn] at h
  repeat' split at h
  all_goals (injection h with h2; subst h2)
  all_goals exact ⟨fun hchg hnn => absurd rfl hchg, fun hprev hnow => by simp_all⟩

theorem book_reason_selinv (u : String) (s : Session) (out : TurnOut)
    (h : book_reason_turn u s = some out) : SelectedInv s out := by
  simp only [book_reason_turn] at h
  injection h with h2; subst h2
  exact ⟨fun hchg hnn => absurd rfl hchg, fun hprev hnow => by simp_all⟩

theorem book_time_pref_selinv (u : String) (s : Session) (out : TurnOut)
    (h : book_time_pref_turn u s = some out) : SelectedInv s out := by
  simp only [book_time_pref_turn] at h
  injection h with h2; subst h2
  exact ⟨fun hchg hnn => absurd rfl hchg, fun hprev hnow => by simp_all⟩

theorem book_offer_selinv (env : Env) (s : Session) (out : TurnOut)
    (h : book_offer_turn env s = some out) : SelectedInv s out := by
  simp only [book_offer_turn] at h
  repeat' split at h
  all_goals first
    | (injection h with h2; subst h2;
       refine ⟨fun hchg hnn => ?_, fun hprev hnow => ?_⟩ <;> simp_all)
    | injection h

theorem book_pick_selinv (u : String) (s : Session) (out : TurnOut)
    (h : book_pick_turn u s = some out) : SelectedInv s out := by
  simp only [book_pick_turn] at h
  split at h
  · injection h with h2; subst h2
    exact ⟨fun hchg hnn => absurd rfl hchg, fun hprev hnow => by simp_all⟩
  · split at h
    · injection h with h2; subst h2
      exact ⟨fun hchg hnn => absurd rfl hchg, fun hprev hnow => by simp_all⟩
    · rename_i d hd sl hsl
      injection h with h2; subst h2
      refine ⟨fun hchg hnn => ?_, fun hprev hnow => ?_⟩
      · rcases hl : s.last_offered_slots with _ | slots
        · rw [hl] at hsl
          simp at hsl
        · rw [hl, Option.getD_some] at hsl
          exact ⟨sl, slots, rfl, by simp [hl], List.getElem?_mem hsl⟩
      · simp_all

theorem book_confirm_selinv (env : Env) (u : String) (s : Session) (out : TurnOut)
    (h : book_confirm_turn env u s = some out) : SelectedInv s out := by
  simp only [book_confirm_turn] at h
  repeat' split at h
  all_goals (injection h with h2; subst h2)
  all_goals refine ⟨fun hchg hnn => ?_, fun hprev hnow => ?_⟩
  all_goals simp_all

theorem triage_intent_selinv (u : String) (s : Session) (out : TurnOut)
    (h : triage_intent_turn u s = some out) : SelectedInv s out := by
  simp only [triage_intent_turn] at h
  repeat' split at h
  all_goals (injection h with h2; subst h2)
  all_goals refine ⟨fun hchg hnn => ?_, fun hprev hnow => ?_⟩
  all_goals simp_all

theorem triage_intent_collops (u : String) (s : Session) (out : TurnOut)
    (h : triage_intent_turn u s = some out) :
    (out.collOps = [] ∧ out.sess.state = s.state) ∨ out.collOps = [CollOp.reset] := by
  simp only [triage_intent_turn] at h
  repeat' split at h
  all_goals (injection h with h2; subst h2)
  all_goals first
    | exact Or.inr rfl
    | exact Or.inl ⟨rfl, rfl⟩

theorem triage_state_collops (env : Env) (u : String) (s : Session) (out : TurnOut)
    (hstate : s.state = "TRIAGE") (h : triage_turn env u s = some out) :
    (out.collOps = [] ∧ out.sess.state = "TRIAGE") ∨ out.collOps = [CollOp.reset] := by
  by_cases hne : u = ""
  · rw [hne, turn_empty env s] at h
    injection h with h2; subst h2
    exact Or.inl ⟨rfl, hstate⟩
  · by_cases hrest : (_norm u = "restart" || _norm u = "start over" || _norm u = "reset") = true
    · rw [turn_restart env u s hne hrest] at h
      injection h with h2; subst h2
      exact Or.inr rfl
    · rw [Bool.not_eq_true] at hrest
      have hrep : ((_norm u = "repeat" || _norm u = "say again")
          && (s.state = "BOOK_PICK_SLOT" || s.state = "RESCH_PICK_SLOT")) = false := by
        rw [hstate]
        simp
      rw [triage_turn_dispatch env u s hne hrest hrep, hstate] at h
      rcases triage_intent_collops u s out h with ⟨h1, h2⟩ | h1
      · exact Or.inl ⟨h1, h2.trans hstate⟩
      · exact Or.inr h1

theorem runOps_away_from_default (ops : List CollOp) : ∀ (w : World) (r : Nat),
    r ≠ 0 → 0 < w.nextRef →
    (runOps w r ops).1.heap 0 = w.heap 0 ∧ (runOps w r ops).2 ≠ 0
      ∧ 0 < (runOps w r ops).1.nextRef := by
  induction ops with
  | nil => exact fun w r hr hw => ⟨rfl, hr, hw⟩
  | cons op ops ih =>
    intro w r hr hw
    cases op with
    | write k v =>
      have step := ih { w with heap := fun a => if a = r then dictSet (w.heap r) k v else w.heap a } r hr hw
      refine ⟨?_, step.2.1, step.2.2⟩
      rw [runOps, step.1]
      simp [Ne.symm hr]
    | reset =>
      have hfresh : w.nextRef ≠ 0 := Nat.pos_iff_ne_zero.mp hw
      have step := ih ⟨fun a => if a = w.nextRef then [] else w.heap a, w.nextRef + 1⟩
        w.nextRef hfresh (Nat.succ_pos _)
      refine ⟨?_, step.2.1, step.2.2⟩
      rw [runOps, step.1]
      simp [Ne.symm hfresh]

theorem heapTurn_none (env : Env) (u : String) (hs : HSession) (w : World)
    (hturn : triage_turn env u (viewSession w hs) = none) :
    heapTurn env u (hs, w) = (hs, w) := by
  simp only [heapTurn, hturn]

theorem heapTurn_some (env : Env) (u : String) (hs : HSession) (w : World) (out : TurnOut)
    (hturn : triage_turn env u (viewSession w hs) = some out) :
    heapTurn env u (hs, w)
      = (toHSession out.sess (runOps w hs.collectedRef out.collOps).2,
         (runOps w hs.collectedRef out.collOps).1) := by
  simp only [heapTurn, hturn]

theorem heapTurn_inv (env : Env) (u : String) (hw : HSession × World)
    (hinv : StoreInv hw) : StoreInv (heapTurn env u hw) := by
  obtain ⟨hs, w⟩ := hw
  cases hturn : triage_turn env u (viewSession w hs) with
  | none =>
    rw [heapTurn_none env u hs w hturn]
    exact hinv
  | some out =>
    rw [heapTurn_some env u hs w out hturn]
    by_cases hr : hs.collectedRef = 0
    · have hstate : (viewSession w hs).state = "TRIAGE" := hinv.1 hr
      rcases triage_state_collops env u _ out hstate hturn with ⟨hops, hstout⟩ | hops
      · rw [hops, hr]
        exact ⟨fun _ => hstout, hinv.2.1, hinv.2.2⟩
      · rw [hops, hr]
        have hfresh : w.nextRef ≠ 0 := Nat.pos_iff_ne_zero.mp hinv.2.2
        refine ⟨fun h0 => absurd h0 hfresh, ?_, Nat.succ_pos _⟩
        show (if (0 : Nat) = w.nextRef then [] else w.heap 0) = []
        rw [if_neg (Ne.symm hfresh)]
        exact hinv.2.1
    · have step := runOps_away_from_default out.collOps w hs.collectedRef hr hinv.2.2
      exact ⟨fun h0 => absurd h0 step.2.1, step.1.trans hinv.2.1, step.2.2⟩

theorem runTurns_inv (ts : List (Env × String)) : ∀ (hw : HSession × World),
    StoreInv hw → StoreInv (runTurns ts hw) := by
  induction ts with
  | nil => exact fun hw h => h
  | cons eu ts ih => exact fun hw h => ih _ (heapTurn_inv eu.1 eu.2 hw h)

/-! ## Claim theorems -/

/-- Claim C1 (code bug): the claim says every turn returns a reply even
when the slot engine yields a non-empty list of fewer than three free
slots.  The code instead raises `IndexError`: in `envC1`/`sessC1` the
engine finds exactly one free slot, and the `BOOK_OFFER_SLOTS` reply
indexes `labels[1]` and `labels[2]`, so the turn escapes with an
exception (`none`). -/
theorem c1_offer_crash_on_scarce_slots :
    (suggest_top_slots envC1 sessC1 30 "").1.length = 1
    ∧ triage_turn envC1 "any time next week" sessC1 = none := ⟨by decide, by decide⟩

/-- Claim C2: no slot returned by `filter_free_slots` overlaps any busy
block; a slot abutting a busy block (slot end = busy start) never counts
as overlapping; an empty busy list excludes nothing. -/
theorem c2_filter_free_slots_no_overlap :
    (∀ candidates busy_blocks : List Slot,
      (filter_free_slots candidates busy_blocks).all
        (fun s => busy_blocks.all (fun b => !overlaps s.1 s.2 b.1 b.2)) = true)
    ∧ (∀ s e b2 : DateTime, overlaps s e e b2 = false)
    ∧ (∀ candidates : List Slot, filter_free_slots candidates [] = candidates) := by
  refine ⟨?_, ?_, ?_⟩
  · intro cands busy
    rw [List.all_eq_true]
    intro s hs
    rw [filter_free_slots, List.mem_filter] at hs
    rw [List.all_eq_true]
    intro b hb
    have h2 := hs.2
    rw [Bool.not_eq_true', List.any_eq_false] at h2
    simpa using h2 b hb
  · intro s e b2
    simp only [overlaps, decide_eq_false_iff_not, not_lt]
    exact le_trans (Nat.min_le_left _ _) (Nat.le_max_right _ _)
  · intro cands
    simp [filter_free_slots]

/-- Claim C3 (code bug): the claim (and the function's own docstring) says
every generated slot lies within `[windowStart, windowEnd]`.  The code
zeroes the seconds of `windowStart` before aligning, so for a
`windowStart` of Monday 10:00:30 (36030) the first slot starts at
10:00:00 (36000), before the window. -/
theorem c3_slot_starts_before_window :
    (generate_candidate_slots 36030 122430 30 9 18).head? = some (36000, 37800)
    ∧ 36000 < 36030 := ⟨by decide, by decide⟩

/-- Claim C4: when a stated time-of-day preference parses to a window and
the first generation pass over that window yields zero free slots,
`suggest_top_slots` re-runs generation with the clinic's full default
working hours against the same busy blocks, and only reports "no slots"
if that second pass is also empty. -/
theorem c4_preference_fallback_to_default_hours :
    ∀ (env : Env) (s : Session) (d : Nat) (pref : String) (a b : Nat),
    env.tokens = true →
    preference_window pref = some (a, b) →
    filter_free_slots
      (generate_candidate_slots env.now (env.now + 7 * 86400)
        (if d = 0 then (get_clinic s).slot_minutes.getD 30 else d) a b) env.busy = [] →
    suggest_top_slots env s d pref =
      (let dur := if d = 0 then (get_clinic s).slot_minutes.getD 30 else d
       let dd := clinic_default_hours (get_clinic s)
       let free2 := filter_free_slots
         (generate_candidate_slots env.now (env.now + 7 * 86400) dur dd.1 dd.2) env.busy
       let top3 := pick_first_n free2 3
       if top3.isEmpty then ([], [], some noSlotsMsg)
       else (top3, top3.map format_slot, none)) := by
  intro env s d pref a b htok hpref hempty
  simp only [suggest_top_slots, next_7_days_window, htok, hpref, Bool.not_true,
    Bool.false_eq_true, if_false, Option.getD_some, Option.isSome_some, Bool.and_true,
    hempty, pick_first_n, List.take_nil, List.isEmpty_nil, if_true]

/-- Claim C4 witness: the spec's scenario — an evening preference (17-20)
with the calendar busy from Monday noon onwards yields zero evening
slots, and the fallback pass over the default 9-18 hours finds the Monday
morning slots. -/
theorem c4_preference_fallback_witness :
    envC4.tokens = true
    ∧ preference_window "evening" = some (17, 20)
    ∧ filter_free_slots
        (generate_candidate_slots envC4.now (envC4.now + 7 * 86400)
          (if (0 : Nat) = 0 then (get_clinic sessC4).slot_minutes.getD 30 else 0) 17 20)
        envC4.busy = []
    ∧ suggest_top_slots envC4 sessC4 0 "evening"
        = ([(32400, 34200), (34200, 36000), (36000, 37800)],
           ["Mon 01 Jan at 09:00", "Mon 01 Jan at 09:30", "Mon 01 Jan at 10:00"], none) :=
  ⟨rfl, by decide, by decide,
   (c4_preference_fallback_to_default_hours envC4 sessC4 0 "evening" 17 20 rfl
     (by decide) (by decide)).trans (by decide)⟩

/-- Claim C5 counterexample: the claim covers every utterance that is
empty after normalization, including whitespace-only ones; but the code's
short-circuit tests `if not user_said`, so the one-space utterance `" "`
in state `BOOK_NAME` is consumed as a name and the state advances to
`BOOK_PHONE` instead of staying unchanged. -/
theorem c5_whitespace_counterexample :
    sessC5.state = "BOOK_NAME"
    ∧ _norm " " = ""
    ∧ (triage_turn envC5 " " sessC5).map (fun o => (o.sess.state, o.sess.collected))
        = some ("BOOK_PHONE", [("name", "")])
    ∧ "BOOK_PHONE" ≠ "BOOK_NAME" := ⟨rfl, by decide, by decide, by decide⟩

/-- Claim C5 (amended): for the utterance that is the empty string, the
turn handler returns the reprompt and the session — state and collected
fields included — completely unchanged.  (Whitespace-only utterances are
not short-circuited by the handler; the telephony route strips the input
before calling it.) -/
theorem c5_empty_utterance_reprompt :
    ∀ (env : Env) (s : Session),
    triage_turn env "" s
      = some ⟨"I didn’t catch that. What would you like to do?", s, [], []⟩ :=
  fun env s => turn_empty env s

/-- Claim C6: `detect_intent` is a function of the lowercased,
whitespace-collapsed text; it equals the spec's ordered
first-match-wins keyword classifier (`detectIntentSpec`, with `UNKNOWN`
for normalized-empty input and `OTHER` as default); and a text containing
both a BOOK keyword and a FAQ_PRICES keyword classifies as BOOK. -/
theorem c6_detect_intent_spec :
    (∀ t1 t2 : String, _norm t1 = _norm t2 → detect_intent t1 = detect_intent t2)
    ∧ (∀ t : String, detect_intent t = detectIntentSpec t)
    ∧ detect_intent "book price" = "BOOK" := by
  refine ⟨?_, fun t => rfl, by decide⟩
  intro t1 t2 h
  simp only [detect_intent]
  rw [h]

/-- Claim C6 witness: two utterances with the same normalization classify
identically. -/
theorem c6_detect_intent_spec_witness :
    _norm "Book an Appointment" = _norm "  book   an APPOINTMENT "
    ∧ detect_intent "Book an Appointment" = detect_intent "  book   an APPOINTMENT " :=
  ⟨by decide,
   c6_detect_intent_spec.1 "Book an Appointment" "  book   an APPOINTMENT " (by decide)⟩

/-- Claim C7: on an affirmative utterance in a final confirmation state
with a credential present (and the flow's working data in place), exactly
one calendar mutation of the right kind is issued — create for
`BOOK_CONFIRM_SLOT`, time-patch for `RESCH_CONFIRM`, delete for
`CANCEL_CONFIRM`, each against the clinic's configured calendar id — and
afterwards, for every collaborator response (success or failure),
`collected`, `last_offered_slots`, `selected_slot` and the pending event
reference are cleared and the state returns to `TRIAGE`. -/
theorem c7_confirm_single_mutation_and_clear :
    ∀ (env : Env) (u : String) (s : Session),
    isAffirm (_norm u) = true → env.tokens = true →
    ((∀ sl, s.state = "BOOK_CONFIRM_SLOT" → s.selected_slot = some sl → s.resch_event_id = none →
        ∃ out, triage_turn env u s = some out
          ∧ (∃ summ desc, out.calls = [CalCall.create ((get_clinic s).calendar_id.getD "primary") sl.1 sl.2 summ desc])
          ∧ out.sess.state = "TRIAGE" ∧ out.sess.collected = []
          ∧ out.sess.last_offered_slots = none ∧ out.sess.selected_slot = none
          ∧ out.sess.resch_event_id = none)
      ∧ (∀ sl eid, s.state = "RESCH_CONFIRM" → s.selected_slot = some sl →
          s.resch_event_id = some eid → eid ≠ "" →
        ∃ out, triage_turn env u s = some out
          ∧ out.calls = [CalCall.patch ((get_clinic s).calendar_id.getD "primary") eid sl.1 sl.2]
          ∧ out.sess.state = "TRIAGE" ∧ out.sess.collected = []
          ∧ out.sess.last_offered_slots = none ∧ out.sess.selected_slot = none
          ∧ out.sess.resch_event_id = none ∧ out.sess.resch_event_summary = none)
      ∧ (∀ eid, s.state = "CANCEL_CONFIRM" → s.resch_event_id = some eid → eid ≠ "" →
          s.last_offered_slots = none → s.selected_slot = none →
        ∃ out, triage_turn env u s = some out
          ∧ out.calls = [CalCall.delete ((get_clinic s).calendar_id.getD "primary") eid]
          ∧ out.sess.state = "TRIAGE" ∧ out.sess.collected = []
          ∧ out.sess.last_offered_slots = none ∧ out.sess.selected_slot = none
          ∧ out.sess.resch_event_id = none ∧ out.sess.resch_event_summary = none)) := by
  intro env u s haff htok
  have hne : ¬ (u = "") := by
    intro h
    rw [h] at haff
    exact absurd haff (by decide)
  have hrest : (_norm u = "restart" || _norm u = "start over" || _norm u = "reset") = false := by
    rcases affirm5 haff with h|h|h|h|h <;> rw [h] <;> decide
  refine ⟨?_, ?_, ?_⟩
  · intro sl hstate hsel hrid
    simp only [triage_turn, book_confirm_turn, hstate, haff, htok, hsel, hrid]
    rw [if_neg hne, hrest]
    simp
  · intro sl eid hstate hsel hrid heid
    simp only [triage_turn, resch_confirm_turn, hstate, haff, htok, hsel, hrid]
    rw [if_neg hne, hrest]
    simp [heid]
  · intro eid hstate hrid heid hlast hsele
    simp only [triage_turn, cancel_confirm_turn, hstate, haff, htok, hrid, hlast, hsele]
    rw [if_neg hne, hrest]
    simp [heid]

/-- Claim C7 witness: confirming a collected booking with "Yes" issues
exactly one create call and resets the session. -/
theorem c7_confirm_single_mutation_witness :
    isAffirm (_norm "Yes") = true ∧ envC7.tokens = true
    ∧ (∃ out, triage_turn envC7 "Yes" sessC7 = some out
        ∧ (∃ summ desc, out.calls = [CalCall.create ((get_clinic sessC7).calendar_id.getD "primary")
            (34200, 36000).1 (34200, 36000).2 summ desc])
        ∧ out.sess.state = "TRIAGE" ∧ out.sess.collected = []
        ∧ out.sess.last_offered_slots = none ∧ out.sess.selected_slot = none
        ∧ out.sess.resch_event_id = none) :=
  ⟨by decide, rfl,
   (c7_confirm_single_mutation_and_clear envC7 "Yes" sessC7 (by decide) rfl).1
     (34200, 36000) rfl rfl rfl⟩

/-- Claim C8 counterexample: (a) the empty utterance normalizes outside
the affirmative set yet is answered by the global empty-input reprompt,
leaving the confirmation state unchanged instead of declining; (b) in
`CANCEL_CONFIRM` a decline clears `collected` but leaves
`last_offered_slots` (stale slot working data) untouched. -/
theorem c8_decline_counterexample :
    isAffirm (_norm "") = false
    ∧ (triage_turn envC8 "" sessC8empty).map (fun o => o.sess.state)
        = some "BOOK_CONFIRM_SLOT"
    ∧ (triage_turn envC8 "no" sessC8cancel).map
        (fun o => (o.sess.state, o.sess.last_offered_slots))
        = some ("TRIAGE", some [(0, 1800)]) :=
  ⟨by decide, by decide, by decide⟩

/-- Claim C8 (amended): for every non-empty utterance whose normalized
form is not affirmative, `BOOK_CONFIRM_SLOT` and `RESCH_CONFIRM` abort to
`TRIAGE` in one turn with `collected` emptied, slot working data cleared
and no calendar mutation; `CANCEL_CONFIRM` does the same except that it
leaves the slot fields untouched (they are null throughout the cancel
flow, which is entered only after they are cleared).  The empty utterance
instead triggers the global empty-input reprompt with no state change. -/
theorem c8_decline_aborts_flow :
    ∀ (env : Env) (u : String) (s : Session),
    u ≠ "" → isAffirm (_norm u) = false →
    ((s.state = "BOOK_CONFIRM_SLOT" →
        ∃ out, triage_turn env u s = some out ∧ out.calls = []
          ∧ out.sess.state = "TRIAGE" ∧ out.sess.collected = []
          ∧ out.sess.last_offered_slots = none ∧ out.sess.selected_slot = none)
      ∧ (s.state = "RESCH_CONFIRM" →
        ∃ out, triage_turn env u s = some out ∧ out.calls = []
          ∧ out.sess.state = "TRIAGE" ∧ out.sess.collected = []
          ∧ out.sess.last_offered_slots = none ∧ out.sess.selected_slot = none)
      ∧ (s.state = "CANCEL_CONFIRM" → s.last_offered_slots = none → s.selected_slot = none →
        ∃ out, triage_turn env u s = some out ∧ out.calls = []
          ∧ out.sess.state = "TRIAGE" ∧ out.sess.collected = []
          ∧ out.sess.last_offered_slots = none ∧ out.sess.selected_slot = none)) := by
  intro env u s hne haff
  by_cases hrest : (_norm u = "restart" || _norm u = "start over" || _norm u = "reset") = true
  · refine ⟨?_, ?_, ?_⟩
    · intro hstate
      rw [turn_restart env u s hne hrest]
      simp
    · intro hstate
      rw [turn_restart env u s hne hrest]
      simp
    · intro hstate hlast hsele
      rw [turn_restart env u s hne hrest]
      simp
  · rw [Bool.not_eq_true] at hrest
    refine ⟨?_, ?_, ?_⟩
    · intro hstate
      simp only [triage_turn, book_confirm_turn, hstate, haff]
      rw [if_neg hne, hrest]
      simp
    · intro hstate
      simp only [triage_turn, resch_confirm_turn, hstate, haff]
      rw [if_neg hne, hrest]
      simp
    · intro hstate hlast hsele
      simp only [triage_turn, cancel_confirm_turn, hstate, haff, hlast, hsele]
      rw [if_neg hne, hrest]
      simp

/-- Claim C8 witness: declining a booking confirmation with "maybe"
aborts to `TRIAGE` with cleared working data and no mutation. -/
theorem c8_decline_aborts_flow_witness :
    ("maybe" ≠ "") ∧ isAffirm (_norm "maybe") = false
    ∧ (∃ out, triage_turn envC8 "maybe" sessC8 = some out ∧ out.calls = []
        ∧ out.sess.state = "TRIAGE" ∧ out.sess.collected = []
        ∧ out.sess.last_offered_slots = none ∧ out.sess.selected_slot = none) :=
  ⟨by decide, by decide,
   (c8_decline_aborts_flow envC8 "maybe" sessC8 (by decide) (by decide)).1 rfl⟩

/-- Claim C9 counterexample: the claim says `selected_slot` is cleared
whenever `last_offered_slots` is cleared or replaced.  The offer states
replace `last_offered_slots` without touching `selected_slot`: in
`sessC9` (state `BOOK_OFFER_SLOTS` with a stale selection) the turn
installs three fresh slots while the stale `selected_slot = (1, 2)` — not
an element of the new list — survives. -/
theorem c9_stale_selected_counterexample :
    sessC9.selected_slot = some (1, 2)
    ∧ (triage_turn envC9 "check please" sessC9).map
        (fun o => (o.sess.last_offered_slots, o.sess.selected_slot))
      = some (some [(32400, 34200), (34200, 36000), (36000, 37800)], some (1, 2))
    ∧ sessC9.last_offered_slots ≠ some [(32400, 34200), (34200, 36000), (36000, 37800)]
    ∧ ((1, 2) ∉ [((32400 : Nat), (34200 : Nat)), (34200, 36000), (36000, 37800)]) :=
  ⟨rfl, by decide, by decide, by decide⟩

/-- Claim C9 (amended): in every turn, a newly assigned non-null
`selected_slot` is an exact element of the current `last_offered_slots`,
and whenever a turn clears (nulls) a previously present
`last_offered_slots` it clears `selected_slot` too.  The offer states
replace `last_offered_slots` without clearing `selected_slot`; within the
flows this is harmless only because both fields are nulled on entering
the booking/reschedule flows. -/
theorem c9_selected_slot_invariant :
    ∀ (env : Env) (u : String) (s : Session) (out : TurnOut),
    triage_turn env u s = some out → SelectedInv s out := by
  intro env u s out h
  by_cases hne : u = ""
  · rw [hne, turn_empty env s] at h
    injection h with h2; subst h2
    exact ⟨fun hchg hnn => absurd rfl hchg, fun hprev hnow => by simp_all⟩
  · by_cases hrest : (_norm u = "restart" || _norm u = "start over" || _norm u = "reset") = true
    · rw [turn_restart env u s hne hrest] at h
      injection h with h2; subst h2
      refine ⟨fun hchg hnn => ?_, fun hprev hnow => ?_⟩ <;> simp_all
    · rw [Bool.not_eq_true] at hrest
      by_cases hrep : ((_norm u = "repeat" || _norm u = "say again")
          && (s.state = "BOOK_PICK_SLOT" || s.state = "RESCH_PICK_SLOT")) = true
      · rw [turn_repeat env u s hne hrest hrep] at h
        injection h with h2; subst h2
        exact ⟨fun hchg hnn => absurd rfl hchg, fun hprev hnow => by simp_all⟩
      · rw [Bool.not_eq_true] at hrep
        rw [triage_turn_dispatch env u s hne hrest hrep] at h
        by_cases h1 : s.state = "RESCH_CHOICE"
        · rw [if_pos h1] at h
          exact resch_choice_selinv u s out h
        rw [if_neg h1] at h
        by_cases h2 : s.state = "RESCH_NAME"
        · rw [if_pos h2] at h
          exact resch_name_selinv u s out h
        rw [if_neg h2] at h
        by_cases h3 : s.state = "RESCH_PHONE"
        · rw [if_pos h3] at h
          exact resch_phone_selinv u s out h
        rw [if_neg h3] at h
        by_cases h4 : s.state = "RESCH_FIND"
        · rw [if_pos h4] at h
          exact resch_find_selinv env s out h
        rw [if_neg h4] at h
        by_cases h5 : s.state = "RESCH_OFFER_SLOTS"
        · rw [if_pos h5] at h
          exact resch_offer_selinv env s out h
        rw [if_neg h5] at h
        by_cases h6 : s.state = "RESCH_PICK_SLOT"
        · rw [if_pos h6] at h
          exact resch_pick_selinv u s out h
        rw [if_neg h6] at h
        by_cases h7 : s.state = "RESCH_CONFIRM"
        · rw [if_pos h7] at h
          exact resch_confirm_selinv env u s out h
        rw [if_neg h7] at h
        by_cases h8 : s.state = "CANCEL_CONFIRM"
        · rw [if_pos h8] at h
          exact cancel_confirm_selinv env u s out h
        rw [if_neg h8] at h
        by_cases h9 : s.state = "BOOK_PATIENT_TYPE"
        · rw [if_pos h9] at h
          exact book_patient_type_selinv u s out h
        rw [if_neg h9] at h
        by_cases h10 : s.state = "BOOK_NAME"
        · rw [if_pos h10] at h
          exact book_name_selinv u s out h
        rw [if_neg h10] at h
        by_cases h11 : s.state = "BOOK_PHONE"
        · rw [if_pos h11] at h
          exact book_phone_selinv u s out h
        rw [if_neg h11] at h
        by_cases h12 : s.state = "BOOK_REASON"
        · rw [if_pos h12] at h
          exact book_reason_selinv u s out h
        rw [if_neg h12] at h
        by_cases h13 : s.state = "BOOK_TIME_PREF"
        · rw [if_pos h13] at h
          exact book_time_pref_selinv u s out h
        rw [if_neg h13] at h
        by_cases h14 : s.state = "BOOK_OFFER_SLOTS"
        · rw [if_pos h14] at h
          exact book_offer_selinv env s out h
        rw [if_neg h14] at h
        by_cases h15 : s.state = "BOOK_PICK_SLOT"
        · rw [if_pos h15] at h
          exact book_pick_selinv u s out h
        rw [if_neg h15] at h
        by_cases h16 : s.state = "BOOK_CONFIRM_SLOT"
        · rw [if_pos h16] at h
          exact book_confirm_selinv env u s out h
        rw [if_neg h16] at h
        exact triage_intent_selinv u s out h

/-- Claim C9 witness: picking option 2 from two offered slots selects the
second offered slot, satisfying the invariant. -/
theorem c9_selected_slot_invariant_witness :
    triage_turn envC9 "2" sessC9w = some outC9w ∧ SelectedInv sessC9w outC9w :=
  ⟨by decide, c9_selected_slot_invariant envC9 "2" sessC9w outC9w (by decide)⟩

/-- Claim C10: cross-call isolation of the session store.  Every fresh
session is `DEFAULT_SESSION.copy()`, a shallow copy sharing one mutable
`collected` dict (heap address 0); yet after ANY sequence of turns run
against one call's fresh session — whatever the collaborator responses
and utterances, including turns that write collected fields — the shared
dict still holds its pristine empty content, so the session subsequently
returned for a different call identifier is exactly the pristine default.
(The clinic registry `CLINICS` is read-only by construction, and the
credential store is only read by turns.) -/
theorem c10_cross_call_isolation :
    ∀ ts : List (Env × String),
    (runTurns ts (get_session_fresh, initialWorld)).2.heap 0 = []
    ∧ viewSession (runTurns ts (get_session_fresh, initialWorld)).2 get_session_fresh
        = viewSession initialWorld get_session_fresh := by
  intro ts
  have hinv : StoreInv (runTurns ts (get_session_fresh, initialWorld)) :=
    runTurns_inv ts _ ⟨fun _ => rfl, rfl, Nat.zero_lt_one⟩
  refine ⟨hinv.2.1, ?_⟩
  have h0 : get_session_fresh.collectedRef = 0 := rfl
  simp only [viewSession, h0, hinv.2.1]
  rfl

end Receptionist
